import Mathlib

/-!
# Spelling-snake game: verification of the movement / word-collection core

Shallow embedding of the game core of this repository, covering both
variants:

* the terminal variant (`snake_game.py`): classes `Snake` and `Game`;
* the GUI variant (`snake_game_gui.py`): class `SnakeGame`, embedded here
  in namespace `Gui`.

Modelling conventions:

* Grid positions and direction vectors are integer pairs `(row, col)`
  (`ℤ × ℤ`), as in the source; post-move heads may leave the grid, so
  coordinates are not bounded by the type.
* Timestamps are integers (seconds).  Python's `time.time()` is replaced by
  an explicit time parameter `t` passed to each stepping function; within
  one tick every `time.time()` call returns the same `t`.  Python's
  `max(0, int(x))` coincides with `max 0 x` on integer-valued times.
* `random.choice(xs)` is replaced by an explicit oracle `k : ℕ`: the
  element picked is `xs[k % xs.length]`, so every element of `xs` is
  picked by some oracle and only elements of `xs` are ever picked.
* Purely visual fields (`message`, `message_timer`, `show_hint`,
  `body_letters`, particles, labels) and the statistics file I/O
  (`update_stats`, `load_stats`, `save_stats`) are outside the embedded
  state: no claim mentions them and they do not feed back into the core.
* Python raises `IndexError` on `body[0]` of an empty deque; the embedding
  uses `List.headI` (default `(0, 0)`).  Theorems about the head carry a
  nonemptiness hypothesis, which the source guarantees (length ≥ 1).
-/

/-- A grid position or direction vector `(row, col)`. -/
abbrev Pos : Type := ℤ × ℤ

/-- Constant `WIDTH = 20` in `snake_game.py`. -/
def WIDTH : ℕ := 20

/-- Constant `HEIGHT = 10` in `snake_game.py`. -/
def HEIGHT : ℕ := 10

/-- Direction vector `UP = (-1, 0)`. -/
def UP : Pos := (-1, 0)

/-- Direction vector `DOWN = (1, 0)`. -/
def DOWN : Pos := (1, 0)

/-- Direction vector `LEFT = (0, -1)`. -/
def LEFT : Pos := (0, -1)

/-- Direction vector `RIGHT = (0, 1)`. -/
def RIGHT : Pos := (0, 1)

/-- The difficulty tag; the source keys the multiplier dict
`{"easy": 1, "medium": 2, "hard": 3}` by these three strings. -/
inductive Difficulty : Type
  | easy
  | medium
  | hard
deriving DecidableEq, Repr

/-- The dict lookup `{"easy": 1, "medium": 2, "hard": 3}[difficulty]`. -/
def Difficulty.multiplier : Difficulty → ℤ
  | .easy => 1
  | .medium => 2
  | .hard => 3

/-- The `Snake` class of `snake_game.py`: body segments head-first,
current heading, the deferred-growth flag `grow_next`, and the
`body_length` counter maintained alongside the body. -/
structure Snake where
  body : List Pos
  direction : Pos
  grow_next : Bool
  body_length : ℕ
deriving DecidableEq, Repr

/-- Constructor `Snake.__init__(start_pos)`; the source's default argument is
`(HEIGHT // 2, WIDTH // 2) = (5, 10)`. -/
def Snake.init (start_pos : Pos) : Snake :=
  { body := [start_pos], direction := RIGHT, grow_next := false, body_length := 1 }

/-- Method `Snake.head`: `self.body[0]`. -/
def Snake.head (s : Snake) : Pos :=
  s.body.headI

/-- Method `Snake.move`: append `head + direction` at the left; pop the tail
(rightmost element) unless `grow_next` is set, in which case clear it. -/
def Snake.move (s : Snake) : Snake :=
  let new_head : Pos := (s.head.1 + s.direction.1, s.head.2 + s.direction.2)
  if s.grow_next then
    { s with body := new_head :: s.body, grow_next := false }
  else
    { s with body := (new_head :: s.body).dropLast }

/-- Method `Snake.grow`: set `grow_next` and bump `body_length`. -/
def Snake.grow (s : Snake) : Snake :=
  { s with grow_next := true, body_length := s.body_length + 1 }

/-- Method `Snake.change_direction`: update the heading unless the current
heading is the exact negation of the requested one. -/
def Snake.change_direction (s : Snake) (new_dir : Pos) : Snake :=
  if s.direction ≠ (-new_dir.1, -new_dir.2) then
    { s with direction := new_dir }
  else
    s

/-- Method `Snake.check_collision_with_self`: `self.head() in list(self.body)[1:]`. -/
def Snake.check_collision_with_self (s : Snake) : Bool :=
  decide (s.head ∈ s.body.tail)

/-- Method `Snake.check_wall_collision`: head row or column outside
`[0, HEIGHT) × [0, WIDTH)`. -/
def Snake.check_wall_collision (s : Snake) : Bool :=
  decide (s.head.1 < 0 ∨ (HEIGHT : ℤ) ≤ s.head.1 ∨ s.head.2 < 0 ∨ (WIDTH : ℤ) ≤ s.head.2)

/-- The list comprehension in `Game.generate_food`: all grid cells, in
row-major order, not occupied by the given body. -/
def emptyPositions (body : List Pos) : List Pos :=
  (List.range HEIGHT).flatMap fun r =>
    (List.range WIDTH).filterMap fun c =>
      let p : Pos := (Int.ofNat r, Int.ofNat c)
      if p ∈ body then none else some p

/-- The `Game` class of `snake_game.py` (core fields; see the module
comment for the omitted view-only fields). -/
structure Game where
  snake : Snake
  food : Option Pos
  score : ℤ
  game_over : Bool
  target_word : List Char
  difficulty : Difficulty
  start_time : ℤ
  last_letter_time : ℤ
  letters_collected : ℕ
deriving DecidableEq, Repr

/-- Method `Game.generate_food`: pick an unoccupied cell (oracle `k` selects
which); if none exists set `food = None`.  The source's comment reads
"No empty positions, you've won!" but the method changes nothing except
`food`. -/
def Game.generate_food (g : Game) (k : ℕ) : Game :=
  let empty := emptyPositions g.snake.body
  if empty.isEmpty then
    { g with food := none }
  else
    { g with food := some (empty.getD (k % empty.length) (0, 0)) }

/-- Method `Game.handle_word_completion` (the stats write is I/O, outside the
core): add `max(0, 100 - (t - start_time)) + 20 * len(target_word)` to the
score. -/
def Game.handle_word_completion (g : Game) (t : ℤ) : Game :=
  { g with score :=
      g.score + (max 0 (100 - (t - g.start_time)) + 20 * (g.target_word.length : ℤ)) }

/-- Method `Game.update`, the per-tick step of the terminal variant.  Note the
source sets `game_over` on collision but does NOT return: the food check
still runs on the same tick. -/
def Game.update (g : Game) (t : ℤ) (k : ℕ) : Game :=
  if g.game_over then g
  else
    let g1 : Game := { g with snake := g.snake.move }
    let g2 : Game :=
      if g1.snake.check_wall_collision || g1.snake.check_collision_with_self then
        { g1 with game_over := true }
      else g1
    if g2.food = some g2.snake.head then
      let g3 : Game := { g2 with snake := g2.snake.grow }
      let letter_time := t - g3.last_letter_time
      let time_bonus := max 0 (20 - letter_time)
      let points := 10 + time_bonus * g3.difficulty.multiplier
      let g4 : Game := { g3 with
        score := g3.score + points
        letters_collected := g3.letters_collected + 1
        last_letter_time := t }
      let g5 : Game :=
        if g4.target_word.length ≤ g4.letters_collected then
          g4.handle_word_completion t
        else g4
      g5.generate_food k
    else g2

namespace Gui

/-- Constant `GRID_WIDTH = 20` in `snake_game_gui.py`. -/
def GRID_WIDTH : ℕ := 20

/-- Constant `GRID_HEIGHT = 15` in `snake_game_gui.py` (NOT equal to the terminal
variant's `HEIGHT = 10`). -/
def GRID_HEIGHT : ℕ := 15

/-- The game-state fields of the GUI variant's `SnakeGame` class, as set
up by `start_game` (widget/visual fields omitted, see the module comment).
The GUI variant keeps the snake as a bare deque of positions and has no
`start_time` field at all — `last_letter_time` is the only timestamp. -/
structure SnakeGame where
  snake : List Pos
  food_pos : Option Pos
  direction : Pos
  next_direction : Pos
  score : ℤ
  letters_collected : ℕ
  target_word : List Char
  difficulty : Difficulty
  last_letter_time : ℤ
  game_over : Bool
  is_running : Bool
  paused : Bool
deriving DecidableEq, Repr

/-- Method `SnakeGame.set_direction`: record the request in `next_direction`
unless it is the exact opposite of the CURRENT heading; no-op when not
running, paused, or over. -/
def SnakeGame.set_direction (g : SnakeGame) (new_dir : Pos) : SnakeGame :=
  if !g.is_running || g.paused || g.game_over then g
  else if g.direction.1 ≠ -new_dir.1 ∨ g.direction.2 ≠ -new_dir.2 then
    { g with next_direction := new_dir }
  else g

/-- The list comprehension in `SnakeGame.generate_food` (grid height 15). -/
def guiEmptyPositions (snake : List Pos) : List Pos :=
  (List.range GRID_HEIGHT).flatMap fun r =>
    (List.range GRID_WIDTH).filterMap fun c =>
      let p : Pos := (Int.ofNat r, Int.ofNat c)
      if p ∈ snake then none else some p

/-- Method `SnakeGame.handle_game_won`: sets the plain `game_over` flag (there is
no separate "won" flag in the source). -/
def SnakeGame.handle_game_won (g : SnakeGame) : SnakeGame :=
  { g with game_over := true }

/-- Method `SnakeGame.handle_game_over`. -/
def SnakeGame.handle_game_over (g : SnakeGame) : SnakeGame :=
  { g with game_over := true }

/-- Method `SnakeGame.generate_food`: no-op unless running; pick an unoccupied
cell, or set `food_pos = None` and call `handle_game_won` when none
exists. -/
def SnakeGame.generate_food (g : SnakeGame) (k : ℕ) : SnakeGame :=
  if !g.is_running then g
  else
    let empty := guiEmptyPositions g.snake
    if empty.isEmpty then
      SnakeGame.handle_game_won { g with food_pos := none }
    else
      { g with food_pos := some (empty.getD (k % empty.length) (0, 0)) }

/-- Method `SnakeGame.handle_word_completion`.  The source computes
`total_time = time.time() - self.last_letter_time`, NOT time since the
session started (the class has no session-start timestamp); the caller
`handle_letter_collection` has just set `last_letter_time` to the current
time, so `total_time` is the within-tick elapsed time, 0 in this
embedding. -/
def SnakeGame.handle_word_completion (g : SnakeGame) (t : ℤ) : SnakeGame :=
  { g with score :=
      g.score + (max 0 (100 - (t - g.last_letter_time)) + 20 * (g.target_word.length : ℤ)) }

/-- Method `SnakeGame.handle_letter_collection`: per-letter scoring, progress
update and, when the word is complete, the completion bonus. -/
def SnakeGame.handle_letter_collection (g : SnakeGame) (t : ℤ) : SnakeGame :=
  let letter_time := t - g.last_letter_time
  let time_bonus := max 0 (20 - letter_time)
  let points := 10 + time_bonus * g.difficulty.multiplier
  let g1 : SnakeGame := { g with
    score := g.score + points
    letters_collected := g.letters_collected + 1
    last_letter_time := t }
  if g1.target_word.length ≤ g1.letters_collected then
    g1.handle_word_completion t
  else g1

/-- Method `SnakeGame.move_snake`, the per-tick step of the GUI variant.  Unlike
the terminal variant it checks collisions BEFORE inserting the new head
(`new_head in self.snake` includes the tail cell about to be vacated),
returns with the body unchanged on collision, and on a pickup keeps the
tail immediately (growth is not deferred). -/
def SnakeGame.move_snake (g : SnakeGame) (t : ℤ) (k : ℕ) : SnakeGame :=
  if !g.is_running || g.paused || g.game_over then g
  else
    let g0 : SnakeGame := { g with direction := g.next_direction }
    let head := g0.snake.headI
    let new_head : Pos := (head.1 + g0.direction.1, head.2 + g0.direction.2)
    if new_head.1 < 0 ∨ (GRID_HEIGHT : ℤ) ≤ new_head.1 ∨
        new_head.2 < 0 ∨ (GRID_WIDTH : ℤ) ≤ new_head.2 ∨ new_head ∈ g0.snake then
      g0.handle_game_over
    else
      let g1 : SnakeGame := { g0 with snake := new_head :: g0.snake }
      if g1.food_pos = some new_head then
        (g1.handle_letter_collection t).generate_food k
      else
        { g1 with snake := g1.snake.dropLast }

end Gui

/-! ## Derived predicates and invariants -/

/-- Membership in the terminal variant's grid `[0, HEIGHT) × [0, WIDTH)`. -/
def InGrid (p : Pos) : Prop :=
  0 ≤ p.1 ∧ p.1 < (HEIGHT : ℤ) ∧ 0 ≤ p.2 ∧ p.2 < (WIDTH : ℤ)

instance (p : Pos) : Decidable (InGrid p) := by
  unfold InGrid; infer_instance

/-- Invariant of every reachable terminal-variant session: the food, when
present, lies inside the grid and never on the snake body.
`Game.generate_food` establishes it and `Game.update` preserves it. -/
def FoodInv (g : Game) : Prop :=
  g.food = none ∨ ∃ p, g.food = some p ∧ InGrid p ∧ p ∉ g.snake.body

/-- The post-move head position determined by a body (head-first) and a
direction vector; shorthand used in theorem statements. -/
def nextHead (body : List Pos) (d : Pos) : Pos :=
  (body.headI.1 + d.1, body.headI.2 + d.2)

/-- The implicit bookkeeping equation of the terminal `Snake`:
`body_length == len(body) + (1 if grow_next else 0)`. -/
def LenInv (s : Snake) : Prop :=
  s.body_length = s.body.length + (if s.grow_next then 1 else 0)

instance (s : Snake) : Decidable (LenInv s) := by
  unfold LenInv; infer_instance

/-- Modelled from the spec: "Word completion: compute total elapsed time
since session start; completion bonus = max(0, 100 − total_seconds) +
20 × len(target_word)."  Used to compare the two variants' completion
bonuses against the specified formula. -/
def spec_completion_bonus (session_start t : ℤ) (len : ℕ) : ℤ :=
  max 0 (100 - (t - session_start)) + 20 * (len : ℤ)

/-! ## Concrete states used by counterexamples and witnesses -/

/-- A reachable terminal session for the one-letter word "a" whose word is
already fully collected (`letters_collected = 1 = len`), with the food one
cell to the right of the head. -/
def gPickupFull : Game :=
  { snake := { body := [((5 : ℤ), (10 : ℤ))], direction := RIGHT, grow_next := false,
               body_length := 1 }
  , food := some (5, 11), score := 0, game_over := false
  , target_word := ['a'], difficulty := .easy
  , start_time := 0, last_letter_time := 0, letters_collected := 1 }

/-- Terminal session whose next move runs the head into the right wall. -/
def gWallT : Game :=
  { snake := { body := [((5 : ℤ), (19 : ℤ))], direction := RIGHT, grow_next := false,
               body_length := 1 }
  , food := some (0, 0), score := 7, game_over := false
  , target_word := ['a'], difficulty := .medium
  , start_time := 0, last_letter_time := 0, letters_collected := 0 }

/-- GUI session whose next move runs the head into the right wall. -/
def ggWallG : Gui.SnakeGame :=
  { snake := [((5 : ℤ), (19 : ℤ))], food_pos := some (0, 0)
  , direction := RIGHT, next_direction := RIGHT
  , score := 7, letters_collected := 0, target_word := ['a'], difficulty := .medium
  , last_letter_time := 0, game_over := false, is_running := true, paused := false }

/-- All cells of the terminal grid, in row-major order. -/
def allCellsT : List Pos := emptyPositions []

/-- Terminal session whose snake occupies the whole grid. -/
def gFullT : Game :=
  { snake := { body := allCellsT, direction := RIGHT, grow_next := false, body_length := 200 }
  , food := some (0, 0), score := 0, game_over := false
  , target_word := ['a'], difficulty := .easy
  , start_time := 0, last_letter_time := 0, letters_collected := 0 }

/-- All cells of the GUI grid, in row-major order. -/
def allCellsG : List Pos := Gui.guiEmptyPositions []

/-- GUI session whose snake occupies the whole grid. -/
def gFullG : Gui.SnakeGame :=
  { snake := allCellsG, food_pos := some (0, 0), direction := RIGHT, next_direction := RIGHT
  , score := 0, letters_collected := 0, target_word := ['a'], difficulty := .easy
  , last_letter_time := 0, game_over := false, is_running := true, paused := false }

/-- GUI session two pickups into the word "cat", about to collect the
final letter; its last pickup happened at time 0 (the session also started
at time 0, which the GUI state cannot record: it has no session-start
field). -/
def gCatG : Gui.SnakeGame :=
  { snake := [((7 : ℤ), (9 : ℤ))], food_pos := some (7, 10)
  , direction := RIGHT, next_direction := RIGHT
  , score := 0, letters_collected := 2, target_word := ['c', 'a', 't'], difficulty := .easy
  , last_letter_time := 0, game_over := false, is_running := true, paused := false }

/-- Terminal session for the word "cat" that started at time 0, used to
evaluate `Game.handle_word_completion` at time 150. -/
def gCatT : Game :=
  { snake := Snake.init (5, 10)
  , food := none, score := 30, game_over := false
  , target_word := ['c', 'a', 't'], difficulty := .easy
  , start_time := 0, last_letter_time := 149, letters_collected := 3 }

/-- Length-2 terminal snake about to move onto the cell its own tail is
vacating this very tick. -/
def gTailT : Game :=
  { snake := { body := [((0 : ℤ), (0 : ℤ)), (0, 1)], direction := RIGHT, grow_next := false,
               body_length := 2 }
  , food := none, score := 0, game_over := false
  , target_word := ['a'], difficulty := .easy
  , start_time := 0, last_letter_time := 0, letters_collected := 0 }

/-- The GUI session with the same body, direction and food as `gTailT`. -/
def gTailG : Gui.SnakeGame :=
  { snake := [((0 : ℤ), (0 : ℤ)), (0, 1)], food_pos := none
  , direction := RIGHT, next_direction := RIGHT
  , score := 0, letters_collected := 0, target_word := ['a'], difficulty := .easy
  , last_letter_time := 0, game_over := false, is_running := true, paused := false }

/-- Terminal session used to witness the core-agreement theorem. -/
def gMidT : Game :=
  { snake := { body := [((3 : ℤ), (3 : ℤ))], direction := RIGHT, grow_next := false,
               body_length := 1 }
  , food := some (9, 9), score := 0, game_over := false
  , target_word := ['a'], difficulty := .easy
  , start_time := 0, last_letter_time := 0, letters_collected := 0 }

/-- GUI session matching `gMidT`'s body, direction and food. -/
def gMidG : Gui.SnakeGame :=
  { snake := [((3 : ℤ), (3 : ℤ))], food_pos := some (9, 9)
  , direction := RIGHT, next_direction := RIGHT
  , score := 0, letters_collected := 0, target_word := ['a'], difficulty := .easy
  , last_letter_time := 0, game_over := false, is_running := true, paused := false }

/-- A snake state with `grow_next` already set (as after a pickup, before
the next move) on which `grow()` is called again. -/
def sDoubleGrow : Snake :=
  { body := [((0 : ℤ), (0 : ℤ))], direction := RIGHT, grow_next := true, body_length := 2 }

/-- Terminal session that is already over. -/
def gOverT : Game :=
  { snake := Snake.init (5, 10)
  , food := some (2, 3), score := 44, game_over := true
  , target_word := ['a'], difficulty := .hard
  , start_time := 0, last_letter_time := 9, letters_collected := 1 }

/-- GUI session that is already over. -/
def gOverG : Gui.SnakeGame :=
  { snake := [((7 : ℤ), (10 : ℤ))], food_pos := some (2, 3)
  , direction := RIGHT, next_direction := UP
  , score := 44, letters_collected := 1, target_word := ['a'], difficulty := .hard
  , last_letter_time := 9, game_over := true, is_running := true, paused := false }

/-- GUI session mid-word, used to witness pickup-scoring theorems: the
head is about to collect the first letter of "cat" at distance one. -/
def gPickG : Gui.SnakeGame :=
  { snake := [((7 : ℤ), (9 : ℤ))], food_pos := some (7, 10)
  , direction := RIGHT, next_direction := RIGHT
  , score := 5, letters_collected := 0, target_word := ['c', 'a', 't'], difficulty := .hard
  , last_letter_time := 4, game_over := false, is_running := true, paused := false }

/-- Terminal session mid-word, used to witness pickup-scoring theorems. -/
def gPickT : Game :=
  { snake := { body := [((5 : ℤ), (10 : ℤ))], direction := RIGHT, grow_next := false,
               body_length := 1 }
  , food := some (5, 11), score := 5, game_over := false
  , target_word := ['c', 'a', 't'], difficulty := .hard
  , start_time := 0, last_letter_time := 4, letters_collected := 0 }

/-! ## Helper lemmas -/

theorem cons_dropLast_of_ne_nil {α : Type} (a : α) {l : List α} (h : l ≠ []) :
    (a :: l).dropLast = a :: l.dropLast := by
  cases l with
  | nil => exact absurd rfl h
  | cons x xs => exact List.dropLast_cons₂ ..

theorem Snake.move_body_tail_subset (s : Snake) : (s.move).body.tail ⊆ s.body := by
  obtain ⟨b, d, gn, L⟩ := s
  cases gn with
  | true => simp [Snake.move]
  | false =>
    cases b with
    | nil => simp [Snake.move]
    | cons x xs =>
      simp only [Snake.move, Bool.false_eq_true, if_false]
      rw [List.dropLast_cons₂]
      exact fun y hy => (List.dropLast_sublist (x :: xs)).subset (by simpa using hy)

theorem Game.generate_food_score (g : Game) (k : ℕ) :
    (g.generate_food k).score = g.score := by
  by_cases h : (emptyPositions g.snake.body).isEmpty <;> simp [Game.generate_food, h]

theorem Game.generate_food_letters (g : Game) (k : ℕ) :
    (g.generate_food k).letters_collected = g.letters_collected := by
  by_cases h : (emptyPositions g.snake.body).isEmpty <;> simp [Game.generate_food, h]

theorem Game.generate_food_snake (g : Game) (k : ℕ) :
    (g.generate_food k).snake = g.snake := by
  by_cases h : (emptyPositions g.snake.body).isEmpty <;> simp [Game.generate_food, h]

theorem Game.generate_food_game_over (g : Game) (k : ℕ) :
    (g.generate_food k).game_over = g.game_over := by
  by_cases h : (emptyPositions g.snake.body).isEmpty <;> simp [Game.generate_food, h]

theorem Gui.SnakeGame.gui_generate_food_score (g : Gui.SnakeGame) (k : ℕ) :
    (g.generate_food k).score = g.score := by
  by_cases hr : g.is_running <;>
    by_cases h : (Gui.guiEmptyPositions g.snake).isEmpty <;>
      simp [Gui.SnakeGame.generate_food, Gui.SnakeGame.handle_game_won, hr, h]

theorem Gui.SnakeGame.gui_generate_food_letters (g : Gui.SnakeGame) (k : ℕ) :
    (g.generate_food k).letters_collected = g.letters_collected := by
  by_cases hr : g.is_running <;>
    by_cases h : (Gui.guiEmptyPositions g.snake).isEmpty <;>
      simp [Gui.SnakeGame.generate_food, Gui.SnakeGame.handle_game_won, hr, h]

theorem Gui.SnakeGame.gui_generate_food_snake (g : Gui.SnakeGame) (k : ℕ) :
    (g.generate_food k).snake = g.snake := by
  by_cases hr : g.is_running <;>
    by_cases h : (Gui.guiEmptyPositions g.snake).isEmpty <;>
      simp [Gui.SnakeGame.generate_food, Gui.SnakeGame.handle_game_won, hr, h]

theorem Game.update_of_game_over (g : Game) (t : ℤ) (k : ℕ) (h : g.game_over = true) :
    g.update t k = g := by
  simp [Game.update, h]

theorem mem_emptyPositions {body : List Pos} {p : Pos} (h : p ∈ emptyPositions body) :
    InGrid p ∧ p ∉ body := by
  simp only [emptyPositions, List.mem_flatMap, List.mem_filterMap, List.mem_range,
    Option.ite_none_left_eq_some, Option.some.injEq] at h
  obtain ⟨r, hr, c, hc, hnb, hpeq⟩ := h
  subst hpeq
  refine ⟨⟨?_, ?_, ?_, ?_⟩, hnb⟩
  · exact Int.ofNat_nonneg r
  · show (Int.ofNat r) < (HEIGHT : ℤ)
    rw [Int.ofNat_eq_natCast]
    unfold HEIGHT at hr ⊢
    omega
  · exact Int.ofNat_nonneg c
  · show (Int.ofNat c) < (WIDTH : ℤ)
    rw [Int.ofNat_eq_natCast]
    unfold WIDTH at hc ⊢
    omega

theorem Game.generate_food_FoodInv (g : Game) (k : ℕ) : FoodInv (g.generate_food k) := by
  unfold Game.generate_food FoodInv
  by_cases h : (emptyPositions g.snake.body).isEmpty
  · simp [h]
  · right
    simp only [h, if_false, Bool.false_eq_true]
    have hlen : 0 < (emptyPositions g.snake.body).length := by
      rw [List.length_pos]
      simpa [List.isEmpty_iff] using h
    have hidx : k % (emptyPositions g.snake.body).length
        < (emptyPositions g.snake.body).length := Nat.mod_lt _ hlen
    have hmem : (emptyPositions g.snake.body).getD
        (k % (emptyPositions g.snake.body).length) (0, 0) ∈ emptyPositions g.snake.body := by
      rw [List.getD_eq_getElem _ _ hidx]
      exact List.getElem_mem hidx
    exact ⟨_, rfl, (mem_emptyPositions hmem).1, (mem_emptyPositions hmem).2⟩

theorem Snake.mem_move_body (s : Snake) {p : Pos} (hp : p ∈ (s.move).body) :
    p = (s.move).head ∨ p ∈ s.body := by
  obtain ⟨b, d, gn, L⟩ := s
  cases gn with
  | true =>
    simp only [Snake.move, Snake.head, if_true, List.mem_cons] at hp ⊢
    simpa using hp
  | false =>
    cases b with
    | nil => simp [Snake.move] at hp
    | cons x xs =>
      simp only [Snake.move, Snake.head, Bool.false_eq_true, if_false,
        List.dropLast_cons₂, List.mem_cons, List.headI] at hp ⊢
      rcases hp with hp | hp
      · exact Or.inl hp
      · have h2 : p ∈ x :: xs := (List.dropLast_sublist (x :: xs)).subset hp
        rcases List.mem_cons.mp h2 with h3 | h3
        · exact Or.inr (Or.inl h3)
        · exact Or.inr (Or.inr h3)

theorem Game.update_preserves_FoodInv (g : Game) (t : ℤ) (k : ℕ) (h : FoodInv g) :
    FoodInv (g.update t k) := by
  by_cases hgo : g.game_over
  · rw [Game.update_of_game_over g t k hgo]; exact h
  · rw [Bool.not_eq_true] at hgo
    by_cases hpick : g.food = some (g.snake.move).head
    · cases hb :
          (g.snake.move.check_wall_collision || g.snake.move.check_collision_with_self) <;>
        by_cases hc : g.target_word.length ≤ g.letters_collected + 1 <;>
          simp [Game.update, hgo, hb, hpick, hc, Game.generate_food_FoodInv]
    · cases hb :
          (g.snake.move.check_wall_collision || g.snake.move.check_collision_with_self) <;>
        · simp only [Game.update, hgo, Bool.false_eq_true, if_false, hb, if_true, hpick]
          rcases h with hnone | ⟨p, hp, hin, hnb⟩
          · exact Or.inl (by simpa using hnone)
          · refine Or.inr ⟨p, by simpa using hp, hin, ?_⟩
            simp only
            intro hmem
            rcases Snake.mem_move_body g.snake hmem with heq | hmem2
            · exact hpick (by rw [hp, heq])
            · exact hnb hmem2

theorem Gui.SnakeGame.move_snake_of_game_over (g : Gui.SnakeGame) (t : ℤ) (k : ℕ)
    (h : g.game_over = true) : g.move_snake t k = g := by
  simp [Gui.SnakeGame.move_snake, h]

/-! ## Claims -/

/-- Claim C7: for every (nonempty-bodied) snake state, `move()` inserts the
new head, equal to the old head plus the current direction vector, at index
0; if pending growth is false it removes the tail, leaving the body length
unchanged; if pending growth is true it clears the flag and leaves the body
length increased by exactly 1. -/
theorem move_head_and_length_spec (s : Snake) (hne : s.body ≠ []) :
    (s.move).body.head? = some (s.head.1 + s.direction.1, s.head.2 + s.direction.2) ∧
    (s.grow_next = false →
      (s.move).body = (s.head.1 + s.direction.1, s.head.2 + s.direction.2) :: s.body.dropLast ∧
      (s.move).body.length = s.body.length ∧
      (s.move).grow_next = false) ∧
    (s.grow_next = true →
      (s.move).body = (s.head.1 + s.direction.1, s.head.2 + s.direction.2) :: s.body ∧
      (s.move).body.length = s.body.length + 1 ∧
      (s.move).grow_next = false) := by
  obtain ⟨b, d, gn, L⟩ := s
  cases b with
  | nil => exact absurd rfl hne
  | cons x xs =>
    cases gn <;>
      simp [Snake.move, Snake.head, List.dropLast_cons₂, List.length_dropLast]

/-- Witness for C7 at the source's starting snake: head `(5, 10)`, heading
`RIGHT`, length 1; after `move()` the head is `(5, 11)` and the length is
still 1. -/
theorem move_head_and_length_spec_witness :
    ((Snake.init ((5 : ℤ), (10 : ℤ))).move).body.head? = some (5, 11) ∧
    ((Snake.init ((5 : ℤ), (10 : ℤ))).move).body.length = 1 := by
  have h := move_head_and_length_spec (Snake.init (5, 10)) (by decide)
  exact ⟨by simpa [Snake.init, Snake.head, RIGHT] using h.1,
         by simpa using (h.2.1 rfl).2.1⟩

/-- Claim C8: a direction-change request equal to the exact opposite of the
current heading is silently ignored, and any other request is accepted —
in the terminal variant on `snake.direction`, in the GUI variant (while
running, unpaused and not over) on `next_direction`. -/
theorem reversal_rejected_others_accepted (s : Snake) (nd : Pos)
    (gg : Gui.SnakeGame) (nd2 : Pos)
    (hrun : gg.is_running = true) (hpaused : gg.paused = false)
    (hover : gg.game_over = false) :
    (s.change_direction (-s.direction.1, -s.direction.2)).direction = s.direction ∧
    (nd ≠ (-s.direction.1, -s.direction.2) → (s.change_direction nd).direction = nd) ∧
    (gg.set_direction (-gg.direction.1, -gg.direction.2)).next_direction = gg.next_direction ∧
    (nd2 ≠ (-gg.direction.1, -gg.direction.2) → (gg.set_direction nd2).next_direction = nd2) := by
  refine ⟨?_, ?_, ?_, ?_⟩
  · simp [Snake.change_direction]
  · intro h
    rw [Snake.change_direction, if_pos]
    intro hc
    exact h (by rw [hc]; simp)
  · simp [Gui.SnakeGame.set_direction, hrun, hpaused, hover]
  · intro h
    rw [Gui.SnakeGame.set_direction, if_neg (by simp [hrun, hpaused, hover]), if_pos]
    rcases Decidable.em (gg.direction.1 = -nd2.1) with h1 | h1
    · rcases Decidable.em (gg.direction.2 = -nd2.2) with h2 | h2
      · exact absurd (Prod.ext (by omega) (by omega)) h
      · exact Or.inr h2
    · exact Or.inl h1

/-- Witness for C8: a snake heading `RIGHT` ignores a `LEFT` request and
accepts an `UP` request; the GUI session `gPickG` behaves the same on
`next_direction`. -/
theorem reversal_rejected_others_accepted_witness :
    ((Snake.init ((5 : ℤ), (10 : ℤ))).change_direction (0, -1)).direction = RIGHT ∧
    ((Snake.init ((5 : ℤ), (10 : ℤ))).change_direction UP).direction = UP ∧
    (gPickG.set_direction (0, -1)).next_direction = RIGHT ∧
    (gPickG.set_direction UP).next_direction = UP := by
  have h := reversal_rejected_others_accepted (Snake.init (5, 10)) UP gPickG UP rfl rfl rfl
  refine ⟨?_, h.2.1 (by decide), ?_, h.2.2.2 (by decide)⟩
  · have h1 := h.1
    simpa [Snake.init, RIGHT] using h1
  · have h2 := h.2.2.1
    simpa [gPickG, RIGHT] using h2

/-- Counterexample to claim C10 as stated: the length equation
`body_length = len(body) + (1 if grow_next else 0)` is NOT preserved by a
`grow()` call made while `grow_next` is already set — `sDoubleGrow`
satisfies the equation, but `sDoubleGrow.grow` does not. -/
theorem double_grow_breaks_length_invariant :
    LenInv sDoubleGrow ∧ ¬ LenInv sDoubleGrow.grow := by
  decide

/-- Claim C10 (amended): the equation
`body_length = len(body) + (1 if grow_next else 0)` holds after
construction, is preserved by every `move()` call, and is preserved by a
`grow()` call whenever `grow_next` is false at the call — which is the
case for every `grow()` the game performs, because each one follows a
`move()` and `move()` always leaves `grow_next` false. -/
theorem body_length_invariant_preserved :
    (∀ p : Pos, LenInv (Snake.init p)) ∧
    (∀ s : Snake, LenInv s → LenInv s.move) ∧
    (∀ s : Snake, s.grow_next = false → LenInv s → LenInv s.grow) ∧
    (∀ s : Snake, (s.move).grow_next = false) := by
  refine ⟨?_, ?_, ?_, ?_⟩
  · intro p; simp [LenInv, Snake.init]
  · intro s h
    obtain ⟨b, d, gn, L⟩ := s
    cases b <;> cases gn <;>
      simp [LenInv, Snake.move, List.dropLast_cons₂, List.length_dropLast] at h ⊢ <;>
        omega
  · intro s hg h
    obtain ⟨b, d, gn, L⟩ := s
    simp only at hg
    subst hg
    simp [LenInv, Snake.grow] at h ⊢
    omega
  · intro s
    obtain ⟨b, d, gn, L⟩ := s
    cases gn <;> simp [Snake.move]

/-- Witness for C10 (amended): the invariant holds for the freshly
constructed snake and is preserved across its first `move()`. -/
theorem body_length_invariant_preserved_witness :
    LenInv ((Snake.init ((5 : ℤ), (10 : ℤ))).move) :=
  body_length_invariant_preserved.2.1 (Snake.init (5, 10)) (by decide)

/-- Claim C6: once `game_over` is true, any number of further `step()`
calls (with arbitrary tick times and food-placement choices) leaves the
session — in particular score, snake body and food — unchanged, in both
variants. -/
theorem terminal_state_steps_are_noops (g : Game) (hgo : g.game_over = true)
    (inputs : List (ℤ × ℕ)) (gg : Gui.SnakeGame) (hggo : gg.game_over = true)
    (inputs2 : List (ℤ × ℕ)) :
    inputs.foldl (fun s i => s.update i.1 i.2) g = g ∧
    inputs2.foldl (fun s i => s.move_snake i.1 i.2) gg = gg := by
  constructor
  · induction inputs with
    | nil => rfl
    | cons i is ih => rw [List.foldl_cons, Game.update_of_game_over _ _ _ hgo]; exact ih
  · induction inputs2 with
    | nil => rfl
    | cons i is ih =>
      rw [List.foldl_cons, Gui.SnakeGame.move_snake_of_game_over _ _ _ hggo]; exact ih

/-- Witness for C6: two further ticks on the already-over sessions
`gOverT` and `gOverG` change nothing. -/
theorem terminal_state_steps_are_noops_witness :
    ([((3 : ℤ), (1 : ℕ)), (7, 2)]).foldl (fun s i => s.update i.1 i.2) gOverT = gOverT ∧
    ([((3 : ℤ), (1 : ℕ)), (7, 2)]).foldl (fun s i => s.move_snake i.1 i.2) gOverG = gOverG :=
  terminal_state_steps_are_noops gOverT rfl _ gOverG rfl _

/-- Claim C2: on a tick whose post-move head has a wall or self collision,
`step()` sets `game_over` and performs no further effects: score,
`letters_collected`, food and the snake (beyond the move itself, hence
pending growth) are untouched.  For the terminal variant this needs the
reachable-state invariant `FoodInv` — the source does NOT return after
setting `game_over`, but `FoodInv` rules out the food overlapping the
colliding head.  The GUI variant returns before even moving the body. -/
theorem collision_tick_is_terminal_without_effects
    (g : Game) (t : ℤ) (k : ℕ) (hinv : FoodInv g) (hgo : g.game_over = false)
    (hcol : (g.snake.move).check_wall_collision = true ∨
            (g.snake.move).check_collision_with_self = true)
    (gg : Gui.SnakeGame) (t2 : ℤ) (k2 : ℕ)
    (hrun : gg.is_running = true) (hpaused : gg.paused = false) (hggo : gg.game_over = false)
    (hgcol : (nextHead gg.snake gg.next_direction).1 < 0 ∨
             (Gui.GRID_HEIGHT : ℤ) ≤ (nextHead gg.snake gg.next_direction).1 ∨
             (nextHead gg.snake gg.next_direction).2 < 0 ∨
             (Gui.GRID_WIDTH : ℤ) ≤ (nextHead gg.snake gg.next_direction).2 ∨
             nextHead gg.snake gg.next_direction ∈ gg.snake) :
    g.update t k = { g with snake := g.snake.move, game_over := true } ∧
    (g.update t k).score = g.score ∧
    (g.update t k).letters_collected = g.letters_collected ∧
    (g.update t k).food = g.food ∧
    gg.move_snake t2 k2 = { gg with direction := gg.next_direction, game_over := true } ∧
    (gg.move_snake t2 k2).snake = gg.snake ∧
    (gg.move_snake t2 k2).score = gg.score ∧
    (gg.move_snake t2 k2).food_pos = gg.food_pos := by
  have hb : (g.snake.move.check_wall_collision || g.snake.move.check_collision_with_self)
      = true := by
    rcases hcol with h | h <;> simp [h]
  have hnf : ¬ (g.food = some (g.snake.move).head) := by
    rcases hinv with hnone | ⟨p, hp, hin, hnb⟩
    · simp [hnone]
    · rw [hp]
      intro hc
      have hph : p = (g.snake.move).head := by simpa using hc
      rcases hcol with h | h
      · have hw : (g.snake.move).head.1 < 0 ∨ (HEIGHT : ℤ) ≤ (g.snake.move).head.1 ∨
            (g.snake.move).head.2 < 0 ∨ (WIDTH : ℤ) ≤ (g.snake.move).head.2 := by
          simpa [Snake.check_wall_collision] using h
        rcases hin with ⟨h1, h2, h3, h4⟩
        rw [hph] at h1 h2 h3 h4
        rcases hw with hw | hw | hw | hw <;> omega
      · have hs : (g.snake.move).head ∈ (g.snake.move).body.tail := by
          simpa [Snake.check_collision_with_self] using h
        exact hnb (hph ▸ Snake.move_body_tail_subset g.snake hs)
  have hmainT : g.update t k = { g with snake := g.snake.move, game_over := true } := by
    simp [Game.update, hgo, hb, hnf]
  have hgc : ((gg.snake.headI.1 + gg.next_direction.1, gg.snake.headI.2 + gg.next_direction.2)
      : Pos).1 < 0 ∨
      (Gui.GRID_HEIGHT : ℤ) ≤ ((gg.snake.headI.1 + gg.next_direction.1,
        gg.snake.headI.2 + gg.next_direction.2) : Pos).1 ∨
      ((gg.snake.headI.1 + gg.next_direction.1, gg.snake.headI.2 + gg.next_direction.2)
        : Pos).2 < 0 ∨
      (Gui.GRID_WIDTH : ℤ) ≤ ((gg.snake.headI.1 + gg.next_direction.1,
        gg.snake.headI.2 + gg.next_direction.2) : Pos).2 ∨
      ((gg.snake.headI.1 + gg.next_direction.1, gg.snake.headI.2 + gg.next_direction.2)
        : Pos) ∈ gg.snake := by
    simpa [nextHead] using hgcol
  have hmainG : gg.move_snake t2 k2
      = { gg with direction := gg.next_direction, game_over := true } := by
    simp [Gui.SnakeGame.move_snake, hrun, hpaused, hggo, Gui.SnakeGame.handle_game_over, hgc]
  refine ⟨hmainT, ?_, ?_, ?_, hmainG, ?_, ?_, ?_⟩ <;> simp [hmainT, hmainG]

/-- Witness for C2: `gWallT` and `ggWallG` both run their head into the
right wall this tick; the step only sets `game_over`. -/
theorem collision_tick_is_terminal_without_effects_witness :
    (gWallT.update 0 0).game_over = true ∧
    (gWallT.update 0 0).score = 7 ∧
    (gWallT.update 0 0).letters_collected = 0 ∧
    (gWallT.update 0 0).food = some (0, 0) ∧
    (ggWallG.move_snake 0 0).game_over = true ∧
    (ggWallG.move_snake 0 0).snake = [(5, 19)] ∧
    (ggWallG.move_snake 0 0).score = 7 := by
  have h := collision_tick_is_terminal_without_effects gWallT 0 0
      (Or.inr ⟨(0, 0), rfl, by decide, by decide⟩) rfl (Or.inl (by decide))
      ggWallG 0 0 rfl rfl rfl (by decide)
  exact ⟨by rw [h.1], h.2.1.trans rfl, h.2.2.1.trans rfl, h.2.2.2.1.trans rfl,
         by rw [h.2.2.2.2.1], h.2.2.2.2.2.1.trans rfl, h.2.2.2.2.2.2.1.trans rfl⟩

/-- Claim C9: a pickup that does not complete the word adds exactly
`10 + max(0, 20 − elapsed) × multiplier` points, where `elapsed` is the
time since the previous pickup (or session start) and the multiplier is
easy = 1, medium = 2, hard = 3 — in both variants. -/
theorem pickup_points_formula
    (g : Game) (t : ℤ) (k : ℕ)
    (hgo : g.game_over = false)
    (hpick : g.food = some (g.snake.move).head)
    (hmore : g.letters_collected + 1 < g.target_word.length)
    (gg : Gui.SnakeGame) (t2 : ℤ) (k2 : ℕ)
    (hrun : gg.is_running = true) (hpaused : gg.paused = false) (hggo : gg.game_over = false)
    (hgnocol : ¬ ((nextHead gg.snake gg.next_direction).1 < 0 ∨
                  (Gui.GRID_HEIGHT : ℤ) ≤ (nextHead gg.snake gg.next_direction).1 ∨
                  (nextHead gg.snake gg.next_direction).2 < 0 ∨
                  (Gui.GRID_WIDTH : ℤ) ≤ (nextHead gg.snake gg.next_direction).2 ∨
                  nextHead gg.snake gg.next_direction ∈ gg.snake))
    (hgfood : gg.food_pos = some (nextHead gg.snake gg.next_direction))
    (hgmore : gg.letters_collected + 1 < gg.target_word.length) :
    (g.update t k).score =
      g.score + (10 + max 0 (20 - (t - g.last_letter_time)) * g.difficulty.multiplier) ∧
    (gg.move_snake t2 k2).score =
      gg.score + (10 + max 0 (20 - (t2 - gg.last_letter_time)) * gg.difficulty.multiplier) ∧
    Difficulty.easy.multiplier = 1 ∧
    Difficulty.medium.multiplier = 2 ∧
    Difficulty.hard.multiplier = 3 := by
  refine ⟨?_, ?_, rfl, rfl, rfl⟩
  · have hnc : ¬ (g.target_word.length ≤ g.letters_collected + 1) := by omega
    cases hb : (g.snake.move.check_wall_collision || g.snake.move.check_collision_with_self) <;>
      simp [Game.update, hgo, hb, hpick, hnc, Game.generate_food_score]
  · have hgc : ¬ (((gg.snake.headI.1 + gg.next_direction.1,
        gg.snake.headI.2 + gg.next_direction.2) : Pos).1 < 0 ∨
        (Gui.GRID_HEIGHT : ℤ) ≤ ((gg.snake.headI.1 + gg.next_direction.1,
          gg.snake.headI.2 + gg.next_direction.2) : Pos).1 ∨
        ((gg.snake.headI.1 + gg.next_direction.1, gg.snake.headI.2 + gg.next_direction.2)
          : Pos).2 < 0 ∨
        (Gui.GRID_WIDTH : ℤ) ≤ ((gg.snake.headI.1 + gg.next_direction.1,
          gg.snake.headI.2 + gg.next_direction.2) : Pos).2 ∨
        ((gg.snake.headI.1 + gg.next_direction.1, gg.snake.headI.2 + gg.next_direction.2)
          : Pos) ∈ gg.snake) := by
      simpa [nextHead] using hgnocol
    have hgf : gg.food_pos = some ((gg.snake.headI.1 + gg.next_direction.1,
        gg.snake.headI.2 + gg.next_direction.2) : Pos) := by
      simpa [nextHead] using hgfood
    have hgnc : ¬ (gg.target_word.length ≤ gg.letters_collected + 1) := by omega
    simp [Gui.SnakeGame.move_snake, hrun, hpaused, hggo, hgc, hgf,
      Gui.SnakeGame.handle_letter_collection, hgnc, Gui.SnakeGame.gui_generate_food_score]

/-- Witness for C9: `gPickT` (hard, previous pickup at time 4) picks up at
time 14 for `10 + 10 × 3 = 40` points; `gPickG` picks up at time 30, past
the 20-second window, for the base 10 points. -/
theorem pickup_points_formula_witness :
    (gPickT.update 14 0).score = 45 ∧ (gPickG.move_snake 30 0).score = 15 := by
  have h := pickup_points_formula gPickT 14 0 rfl (by decide) (by decide)
      gPickG 30 0 rfl rfl rfl (by decide) (by decide) (by decide)
  exact ⟨by rw [h.1]; decide, by rw [h.2.1]; decide⟩

/-- Counterexample to claim C1 as stated: `gPickupFull` is a reachable
session (word "a" fully collected, the game keeps running) in which the
next pickup pushes `letters_collected` to 2, strictly above
`len(target_word) = 1`: the counter is incremented unconditionally and the
session does not stop at word completion. -/
theorem letters_collected_exceeds_word_length :
    gPickupFull.target_word.length = 1 ∧
    gPickupFull.letters_collected = 1 ∧
    gPickupFull.game_over = false ∧
    (gPickupFull.update 0 0).letters_collected = 2 := by
  decide

/-- Claim C1 (amended): every pickup increments `letters_collected` by
exactly one, with no clamp at `len(target_word)` — in particular a pickup
occurring when `letters_collected = len(target_word)` pushes it past the
word length (derived progress displays clamp instead).  Both variants. -/
theorem pickup_increments_letters_collected
    (g : Game) (t : ℤ) (k : ℕ)
    (hgo : g.game_over = false)
    (hpick : g.food = some (g.snake.move).head)
    (gg : Gui.SnakeGame) (t2 : ℤ) (k2 : ℕ)
    (hrun : gg.is_running = true) (hpaused : gg.paused = false) (hggo : gg.game_over = false)
    (hgnocol : ¬ ((nextHead gg.snake gg.next_direction).1 < 0 ∨
                  (Gui.GRID_HEIGHT : ℤ) ≤ (nextHead gg.snake gg.next_direction).1 ∨
                  (nextHead gg.snake gg.next_direction).2 < 0 ∨
                  (Gui.GRID_WIDTH : ℤ) ≤ (nextHead gg.snake gg.next_direction).2 ∨
                  nextHead gg.snake gg.next_direction ∈ gg.snake))
    (hgfood : gg.food_pos = some (nextHead gg.snake gg.next_direction)) :
    (g.update t k).letters_collected = g.letters_collected + 1 ∧
    (gg.move_snake t2 k2).letters_collected = gg.letters_collected + 1 := by
  constructor
  · cases hb : (g.snake.move.check_wall_collision || g.snake.move.check_collision_with_self) <;>
      by_cases hc : g.target_word.length ≤ g.letters_collected + 1 <;>
        simp [Game.update, hgo, hb, hpick, hc, Game.generate_food_letters,
          Game.handle_word_completion]
  · have hgc : ¬ (((gg.snake.headI.1 + gg.next_direction.1,
        gg.snake.headI.2 + gg.next_direction.2) : Pos).1 < 0 ∨
        (Gui.GRID_HEIGHT : ℤ) ≤ ((gg.snake.headI.1 + gg.next_direction.1,
          gg.snake.headI.2 + gg.next_direction.2) : Pos).1 ∨
        ((gg.snake.headI.1 + gg.next_direction.1, gg.snake.headI.2 + gg.next_direction.2)
          : Pos).2 < 0 ∨
        (Gui.GRID_WIDTH : ℤ) ≤ ((gg.snake.headI.1 + gg.next_direction.1,
          gg.snake.headI.2 + gg.next_direction.2) : Pos).2 ∨
        ((gg.snake.headI.1 + gg.next_direction.1, gg.snake.headI.2 + gg.next_direction.2)
          : Pos) ∈ gg.snake) := by
      simpa [nextHead] using hgnocol
    have hgf : gg.food_pos = some ((gg.snake.headI.1 + gg.next_direction.1,
        gg.snake.headI.2 + gg.next_direction.2) : Pos) := by
      simpa [nextHead] using hgfood
    by_cases hc : gg.target_word.length ≤ gg.letters_collected + 1 <;>
      simp [Gui.SnakeGame.move_snake, hrun, hpaused, hggo, hgc, hgf,
        Gui.SnakeGame.handle_letter_collection, Gui.SnakeGame.handle_word_completion, hc,
        Gui.SnakeGame.gui_generate_food_letters]

/-- Witness for C1 (amended): the pickups of `gPickT` and `gPickG` raise
`letters_collected` from 0 to 1. -/
theorem pickup_increments_letters_collected_witness :
    (gPickT.update 14 0).letters_collected = 1 ∧
    (gPickG.move_snake 30 0).letters_collected = 1 := by
  have h := pickup_increments_letters_collected gPickT 14 0 rfl (by decide)
      gPickG 30 0 rfl rfl rfl (by decide) (by decide)
  exact ⟨by rw [h.1]; decide, by rw [h.2]; decide⟩

/-- Counterexample to claim C3 as stated: after food regeneration on the
full grid, the terminal variant's session has `food = None` but is NOT in
any terminal state — there is no "won" flag in the class at all,
`game_over` stays false, and a further `update()` still moves the snake
(the head advances from `(0, 0)` to `(0, 1)`). -/
theorem grid_exhaustion_not_terminal_in_terminal_variant :
    (gFullT.generate_food 0).food = none ∧
    (gFullT.generate_food 0).game_over = false ∧
    ((gFullT.generate_food 0).update 0 0).snake.body.head? = some (0, 1) ∧
    (gFullT.generate_food 0).snake.body.head? = some (0, 0) := by
  decide

/-- Claim C3 (amended): when food regeneration finds no unoccupied cell,
`food` becomes absent in both variants; the GUI variant then becomes
terminal by setting the ordinary `game_over` flag (there is no WON state
distinct from GAME_OVER), while the terminal variant sets no flag at all
and its simulation continues. -/
theorem grid_exhaustion_sets_food_none
    (g : Game) (k : ℕ) (hfull : emptyPositions g.snake.body = [])
    (gg : Gui.SnakeGame) (k2 : ℕ) (hrun : gg.is_running = true)
    (hgfull : Gui.guiEmptyPositions gg.snake = []) :
    (g.generate_food k).food = none ∧
    (g.generate_food k).game_over = g.game_over ∧
    (g.generate_food k).snake = g.snake ∧
    (gg.generate_food k2).food_pos = none ∧
    (gg.generate_food k2).game_over = true := by
  refine ⟨?_, ?_, ?_, ?_, ?_⟩ <;>
    simp [Game.generate_food, Gui.SnakeGame.generate_food, hfull, hgfull, hrun,
      Gui.SnakeGame.handle_game_won]

/-- Witness for C3 (amended): the full-grid sessions `gFullT` and
`gFullG`. -/
theorem grid_exhaustion_sets_food_none_witness :
    (gFullT.generate_food 3).food = none ∧
    (gFullT.generate_food 3).game_over = gFullT.game_over ∧
    (gFullT.generate_food 3).snake = gFullT.snake ∧
    (gFullG.generate_food 3).food_pos = none ∧
    (gFullG.generate_food 3).game_over = true :=
  grid_exhaustion_sets_food_none gFullT 3 (by decide) gFullG 3 rfl (by decide)

/-- Claim C4 (code bug in the GUI variant): the terminal variant's
completion bonus matches the specified
`max(0, 100 − total_seconds) + 20 × len(target_word)` with `total_seconds`
measured from session start, but the GUI variant measures from
`last_letter_time` — which `handle_letter_collection` has just set to the
current time — so its "time bonus" is always the full 100.  Concretely:
`gCatG` completes "cat" 150 seconds into the session and scores
`10 + 100 + 60 = 170`, where the specified formula yields
`10 + 0 + 60 = 70`. -/
theorem gui_completion_bonus_ignores_session_start :
    (gCatG.move_snake 150 0).score = 170 ∧
    gCatG.score + (10 + spec_completion_bonus 0 150 3) = 70 ∧
    (gCatG.move_snake 150 0).score ≠ gCatG.score + (10 + spec_completion_bonus 0 150 3) ∧
    (gCatT.handle_word_completion 150).score
      = gCatT.score + spec_completion_bonus gCatT.start_time 150 gCatT.target_word.length := by
  refine ⟨by decide, by decide, by decide, by decide⟩

/-- Counterexample to claim C5 as stated: with the same body
`[(0,0), (0,1)]`, the same heading `RIGHT` and the same (absent) food, the
terminal core survives the tick (the head moves onto the cell the tail
vacates) while the GUI core declares game over and leaves the body where
it was: the two per-tick cores produce different `game_over` outcomes and
different bodies. -/
theorem cores_disagree_on_tail_cell_move :
    gTailT.snake.body = gTailG.snake ∧
    gTailT.snake.direction = gTailG.next_direction ∧
    gTailT.food = gTailG.food_pos ∧
    (gTailT.update 0 0).game_over = false ∧
    (gTailG.move_snake 0 0).game_over = true ∧
    (gTailT.update 0 0).snake.body = [(0, 1), (0, 0)] ∧
    (gTailG.move_snake 0 0).snake = [(0, 0), (0, 1)] := by
  decide

/-- Claim C5 (amended): the two per-tick cores agree — same `game_over`
outcome, and, when no collision occurs, the same resulting body — on every
tick that avoids their three genuine divergences: the post-move head must
not lie in the old body (the GUI core checks against the not-yet-moved
tail), must not lie on the food cell (growth timing differs), and its row
must not fall in `[10, 15)` (the grid heights differ: 10 vs 15). -/
theorem cores_agree_away_from_divergences
    (gT : Game) (gG : Gui.SnakeGame) (t : ℤ) (k : ℕ)
    (hsnake : gT.snake.body = gG.snake)
    (hdir : gT.snake.direction = gG.next_direction)
    (hfood : gT.food = gG.food_pos)
    (hgrow : gT.snake.grow_next = false)
    (hTgo : gT.game_over = false)
    (hGgo : gG.game_over = false) (hGrun : gG.is_running = true) (hGpause : gG.paused = false)
    (hne : gG.snake ≠ [])
    (hnh : nextHead gG.snake gG.next_direction ∉ gG.snake)
    (hnf : gG.food_pos ≠ some (nextHead gG.snake gG.next_direction))
    (hrow : ¬ ((HEIGHT : ℤ) ≤ (nextHead gG.snake gG.next_direction).1 ∧
               (nextHead gG.snake gG.next_direction).1 < (Gui.GRID_HEIGHT : ℤ))) :
    ((gT.update t k).game_over = (gG.move_snake t k).game_over) ∧
    ((gT.update t k).game_over = false →
      (gT.update t k).snake.body = (gG.move_snake t k).snake) := by
  have hrow10 : ¬ ((10 : ℤ) ≤ (nextHead gG.snake gG.next_direction).1 ∧
      (nextHead gG.snake gG.next_direction).1 < (15 : ℤ)) := by
    simpa [HEIGHT, Gui.GRID_HEIGHT] using hrow
  have hmb : (gT.snake.move).body
      = nextHead gG.snake gG.next_direction :: gG.snake.dropLast := by
    simp only [Snake.move, Snake.head, hgrow, Bool.false_eq_true, if_false, hsnake, hdir]
    exact cons_dropLast_of_ne_nil _ hne
  have hmh : (gT.snake.move).head = nextHead gG.snake gG.next_direction := by
    rw [Snake.head, hmb]; rfl
  have hmt : (gT.snake.move).body.tail = gG.snake.dropLast := by
    rw [hmb]; rfl
  have hself : (gT.snake.move).check_collision_with_self = false := by
    rw [Snake.check_collision_with_self, decide_eq_false_iff_not, hmh, hmt]
    intro hmem
    exact hnh ((List.dropLast_sublist gG.snake).subset hmem)
  have hfoodne : ¬ (gT.food = some (gT.snake.move).head) := by
    rw [hmh, hfood]; exact hnf
  by_cases hw : (nextHead gG.snake gG.next_direction).1 < 0 ∨
      (10 : ℤ) ≤ (nextHead gG.snake gG.next_direction).1 ∨
      (nextHead gG.snake gG.next_direction).2 < 0 ∨
      (20 : ℤ) ≤ (nextHead gG.snake gG.next_direction).2
  · have hwall : (gT.snake.move).check_wall_collision = true := by
      rw [Snake.check_wall_collision, decide_eq_true_eq, hmh]
      simpa [HEIGHT, WIDTH] using hw
    have hb : (gT.snake.move.check_wall_collision
        || gT.snake.move.check_collision_with_self) = true := by
      simp [hwall]
    have hT : gT.update t k = { gT with snake := gT.snake.move, game_over := true } := by
      simp [Game.update, hTgo, hb, hfoodne]
    have hGcond : (nextHead gG.snake gG.next_direction).1 < 0 ∨
        (Gui.GRID_HEIGHT : ℤ) ≤ (nextHead gG.snake gG.next_direction).1 ∨
        (nextHead gG.snake gG.next_direction).2 < 0 ∨
        (Gui.GRID_WIDTH : ℤ) ≤ (nextHead gG.snake gG.next_direction).2 ∨
        nextHead gG.snake gG.next_direction ∈ gG.snake := by
      simp only [Gui.GRID_HEIGHT, Gui.GRID_WIDTH, Nat.cast_ofNat]
      rcases hw with h | h | h | h
      · exact Or.inl h
      · exact Or.inr (Or.inl (by omega))
      · exact Or.inr (Or.inr (Or.inl h))
      · exact Or.inr (Or.inr (Or.inr (Or.inl (by omega))))
    have hgc : ((gG.snake.headI.1 + gG.next_direction.1, gG.snake.headI.2
        + gG.next_direction.2) : Pos).1 < 0 ∨
        (Gui.GRID_HEIGHT : ℤ) ≤ ((gG.snake.headI.1 + gG.next_direction.1,
          gG.snake.headI.2 + gG.next_direction.2) : Pos).1 ∨
        ((gG.snake.headI.1 + gG.next_direction.1, gG.snake.headI.2
          + gG.next_direction.2) : Pos).2 < 0 ∨
        (Gui.GRID_WIDTH : ℤ) ≤ ((gG.snake.headI.1 + gG.next_direction.1,
          gG.snake.headI.2 + gG.next_direction.2) : Pos).2 ∨
        ((gG.snake.headI.1 + gG.next_direction.1, gG.snake.headI.2
          + gG.next_direction.2) : Pos) ∈ gG.snake := by
      simpa [nextHead] using hGcond
    have hG : gG.move_snake t k
        = { gG with direction := gG.next_direction, game_over := true } := by
      simp [Gui.SnakeGame.move_snake, hGrun, hGpause, hGgo,
        Gui.SnakeGame.handle_game_over, hgc]
    constructor
    · rw [hT, hG]
    · intro hfalse
      rw [hT] at hfalse
      simp at hfalse
  · have hwall : (gT.snake.move).check_wall_collision = false := by
      rw [Snake.check_wall_collision, decide_eq_false_iff_not, hmh]
      simpa [HEIGHT, WIDTH] using hw
    have hb : (gT.snake.move.check_wall_collision
        || gT.snake.move.check_collision_with_self) = false := by
      simp [hwall, hself]
    have hT : gT.update t k = { gT with snake := gT.snake.move } := by
      simp [Game.update, hTgo, hb, hfoodne]
    have hGcond : ¬ ((nextHead gG.snake gG.next_direction).1 < 0 ∨
        (Gui.GRID_HEIGHT : ℤ) ≤ (nextHead gG.snake gG.next_direction).1 ∨
        (nextHead gG.snake gG.next_direction).2 < 0 ∨
        (Gui.GRID_WIDTH : ℤ) ≤ (nextHead gG.snake gG.next_direction).2 ∨
        nextHead gG.snake gG.next_direction ∈ gG.snake) := by
      simp only [Gui.GRID_HEIGHT, Gui.GRID_WIDTH, Nat.cast_ofNat]
      push_neg at hw ⊢
      refine ⟨hw.1, by omega, hw.2.2.1, by have := hw.2.2.2; omega, hnh⟩
    have hgc : ¬ (((gG.snake.headI.1 + gG.next_direction.1, gG.snake.headI.2
        + gG.next_direction.2) : Pos).1 < 0 ∨
        (Gui.GRID_HEIGHT : ℤ) ≤ ((gG.snake.headI.1 + gG.next_direction.1,
          gG.snake.headI.2 + gG.next_direction.2) : Pos).1 ∨
        ((gG.snake.headI.1 + gG.next_direction.1, gG.snake.headI.2
          + gG.next_direction.2) : Pos).2 < 0 ∨
        (Gui.GRID_WIDTH : ℤ) ≤ ((gG.snake.headI.1 + gG.next_direction.1,
          gG.snake.headI.2 + gG.next_direction.2) : Pos).2 ∨
        ((gG.snake.headI.1 + gG.next_direction.1, gG.snake.headI.2
          + gG.next_direction.2) : Pos) ∈ gG.snake) := by
      simpa [nextHead] using hGcond
    have hgf : ¬ (gG.food_pos = some ((gG.snake.headI.1 + gG.next_direction.1,
        gG.snake.headI.2 + gG.next_direction.2) : Pos)) := by
      simpa [nextHead] using hnf
    have hG : gG.move_snake t k =
        { gG with
          direction := gG.next_direction
          snake := ((gG.snake.headI.1 + gG.next_direction.1, gG.snake.headI.2
            + gG.next_direction.2) : Pos) :: gG.snake.dropLast } := by
      simp [Gui.SnakeGame.move_snake, hGrun, hGpause, hGgo, hgc, hgf,
        cons_dropLast_of_ne_nil _ hne]
    constructor
    · rw [hT, hG]
      simp [hTgo, hGgo]
    · intro _
      rw [hT, hG]
      simp only
      rw [hmb]
      rfl

/-- Witness for C5 (amended): a mid-board single-segment snake stepping
right behaves identically in the two cores. -/
theorem cores_agree_away_from_divergences_witness :
    ((gMidT.update 0 0).game_over = (gMidG.move_snake 0 0).game_over) ∧
    (gMidT.update 0 0).snake.body = (gMidG.move_snake 0 0).snake := by
  have h := cores_agree_away_from_divergences gMidT gMidG 0 0 rfl rfl rfl rfl rfl rfl rfl rfl
      (by decide) (by decide) (by decide) (by decide)
  exact ⟨h.1, h.2 (by decide)⟩
